import Mathlib

/-
  Verification of the timing core of a generative step sequencer.

  Shallow embedding over the rationals of:
  - src/src/core/HumanizeEngine.js  (getHumanizedNote and its helpers)
  - src/src/core/GhostNoteGenerator.js  (plain revision, no hi-hat mode)
  - src/unnamed/part_005  (mode-aware GhostNoteGenerator revision, M suffix)
  - src/unnamed/part_007  (GrooveController.handleTick ghost dispatch)
  - src/unnamed/part_008  (second document: MathUtils.js, the Gaussian
    velocity and probability helpers)
  - src/unnamed/part_009  (Clock.advanceNote)
  - src/src/core/Store.js  (second revision: reducer and dispatch)
  - src/src/main.js  (tempo input change handler)

  JavaScript numbers are modelled as rationals; Math.round is the Lean round
  (both round half toward positive infinity).  Calls to Math.random and to
  gaussianRandom (Box-Muller over log and cos, hence transcendental) are
  impure in the source; here every such sample is an explicit argument,
  indexed by the candidate step where a generator draws once per candidate.
-/

/-- Hi-hat mode enumeration: friction (rigid), limp (closed hat drags),
live (both hats rush). -/
inductive HihatMode where
  | friction
  | limp
  | live
deriving DecidableEq

/-- One note of the cached groove-model (AI) sequence: pitch, start time in
seconds (pattern relative) and velocity. -/
structure AiNote where
  pitch : ℤ
  startTime : ℚ
  velocity : ℚ
deriving DecidableEq

/-- The groove-model sequence object; the source reads only its notes array. -/
structure AiSequence where
  notes : List AiNote
deriving DecidableEq

/-- Per-track settings entry.  JavaScript objects are open maps, and the two
state revisions use different field sets, so every field is optional here;
absent fields read through the same defaults the source applies with the
nullish coalescing operator. -/
structure TrackSetting where
  humanize : Option ℚ
  swingEnabled : Option Bool
  ghostsEnabled : Option Bool
  swingLocked : Option Bool
  ghostQuantity : Option ℚ
deriving DecidableEq

/-- A generated ghost note: pitch, home step, quantized start time (pattern
relative seconds) and velocity. -/
structure Ghost where
  pitch : ℤ
  step : ℕ
  startTime : ℚ
  velocity : ℚ
deriving DecidableEq

/-- The random draws consumed by one getHumanizedNote call: the Math.random
draw inside getPushPullOffset, the Math.random draw inside getMicroVariation,
and the gaussianRandom sample of the velocity branch. -/
structure HumanizeRand where
  pushPull : ℚ
  micro : ℚ
  vel : ℚ
deriving DecidableEq

-- Drum pitch table, from the pitch map of src/unnamed/part_004
-- (0 kick, 1 snare, 2 closed hi-hat, 3 open hi-hat).
def DRUM_PITCHES_KICK : ℤ := 36
def DRUM_PITCHES_SNARE : ℤ := 38
def DRUM_PITCHES_HIHAT_CLOSED : ℤ := 42
def DRUM_PITCHES_HIHAT_OPEN : ℤ := 46

/-- Track index to MIDI pitch map; indices outside 0..3 are unmapped in the
source (undefined) and return a junk value 0 here. -/
def TRACK_TO_PITCH (trackIdx : ℕ) : ℤ :=
  if trackIdx = 0 then DRUM_PITCHES_KICK
  else if trackIdx = 1 then DRUM_PITCHES_SNARE
  else if trackIdx = 2 then DRUM_PITCHES_HIHAT_CLOSED
  else if trackIdx = 3 then DRUM_PITCHES_HIHAT_OPEN
  else 0

-- HumanizeEngine.js constants.
def DILLA_MAX_BPM : ℚ := 96
def AI_BLEND_velocityWeight : ℚ := 3/10
def AI_BLEND_microTimingWeight : ℚ := 1/2
def AI_BLEND_ghostVelocityWeight : ℚ := 1/2

/-- Per-track swing multipliers, selected by hi-hat mode; the source keeps one
table per mode and falls back to 0.5 for unmapped pitches. -/
def trackSwingMultiplier (mode : HihatMode) (pitch : ℤ) : ℚ :=
  if pitch = DRUM_PITCHES_KICK then 1
  else if pitch = DRUM_PITCHES_SNARE then 2/10
  else if pitch = DRUM_PITCHES_HIHAT_CLOSED then
    match mode with
    | HihatMode.friction => 3/10
    | HihatMode.limp => 62/100
    | HihatMode.live => 5/10
  else if pitch = DRUM_PITCHES_HIHAT_OPEN then
    match mode with
    | HihatMode.friction => 4/10
    | HihatMode.limp => 4/10
    | HihatMode.live => 45/100
  else 1/2

/-- gaussianProbability of MathUtils.js (second document of
src/unnamed/part_008): the absolute value of a Gaussian sample, normalized
by 3 to a roughly 0..1 range, is compared against the probability.  The
gaussianRandom sample (Box-Muller in the source, hence transcendental and
impure) is the explicit draw argument here. -/
def gaussianProbability (probability : ℚ) (sample : ℚ) : Bool :=
  |sample| / 3 < probability

/-- gaussianVelocity of MathUtils.js (second document of
src/unnamed/part_008): the target velocity plus a Gaussian variation of
spread stdDev, clamped to 1..127 and rounded.  The gaussianRandom sample is
the explicit draw argument here. -/
def gaussianVelocity (target stdDev draw : ℚ) : ℚ :=
  ((round (max 1 (min 127 (target + draw * stdDev))) : ℤ) : ℚ)

/-- Tuplet swing offset: blends straight (50 percent) toward septuplet
(57 percent) below half intensity, then toward quintuplet (60 percent). -/
def getTupletOffset (stepDuration humanizeAmount : ℚ) : ℚ :=
  if humanizeAmount < 1/2 then
    let blend := humanizeAmount / (1/2)
    let straight := stepDuration * (1/2)
    let septuplet := stepDuration * (57/100)
    straight + (septuplet - straight) * blend
  else
    let blend := (humanizeAmount - 1/2) / (1/2)
    let septuplet := stepDuration * (57/100)
    let quintuplet := stepDuration * (6/10)
    septuplet + (quintuplet - septuplet) * blend

/-- Micro-variation noise, plus/minus 2ms at zero intensity growing to
plus/minus 8ms; r is the Math.random draw in the unit interval. -/
def getMicroVariation (humanizeAmount r : ℚ) : ℚ :=
  let maxVariationMs := 2 + humanizeAmount * 6
  ((r - 1/2) * 2 * maxVariationMs) / 1000

/-- Quantize an offset to MPC 3000 resolution, 96 pulses per quarter note:
round to the nearest integer number of ticks of 60/bpm/96 seconds. -/
def quantizeToMPCTicks (offsetSeconds bpm : ℚ) : ℚ :=
  let tickDuration := 60 / bpm / 96
  ((round (offsetSeconds / tickDuration) : ℤ) : ℚ) * tickDuration

/-- Push-pull offset per instrument and hi-hat mode; r is the Math.random
draw of the taken branch. -/
def getPushPullOffset (pitch : ℤ) (humanizeAmount : ℚ) (hihatMode : HihatMode)
    (r : ℚ) : ℚ :=
  if pitch = DRUM_PITCHES_KICK then
    let baseDrag := (15 + 30 * humanizeAmount) / 1000
    baseDrag * (8/10 + r * (4/10))
  else if pitch = DRUM_PITCHES_SNARE then
    -(r * (10 + 15 * humanizeAmount)) / 1000
  else if hihatMode = HihatMode.limp ∧ pitch = DRUM_PITCHES_HIHAT_CLOSED then
    let baseDrag := (8 + 12 * humanizeAmount) / 1000
    baseDrag * (8/10 + r * (4/10))
  else if hihatMode = HihatMode.live then
    if pitch = DRUM_PITCHES_HIHAT_CLOSED then
      -(((5 + 10 * humanizeAmount) / 1000) * (8/10 + r * (4/10)))
    else if pitch = DRUM_PITCHES_HIHAT_OPEN then
      -(((3 + 5 * humanizeAmount) / 1000) * (8/10 + r * (4/10)))
    else 0
  else 0

/-- Reads swingLocked through the optional chain of the source:
trackSettings, then the track entry, then the field, defaulting to false. -/
def tsSwingLocked (trackSettings : Option (ℕ → Option TrackSetting))
    (trackIdx : ℕ) : Bool :=
  (((trackSettings.bind fun m => m trackIdx).bind
      TrackSetting.swingLocked).getD false)

/-- Reads ghostQuantity through the optional chain, defaulting to 0. -/
def tsGhostQuantity (trackSettings : Option (ℕ → Option TrackSetting))
    (trackIdx : ℕ) : ℚ :=
  (((trackSettings.bind fun m => m trackIdx).bind
      TrackSetting.ghostQuantity).getD 0)

/-- The groove-note lookup of getHumanizedNote: the first note of the cached
sequence with the target pitch whose start time rounds to the step index. -/
def findAiNote (aiSequence : Option AiSequence) (stepDuration : ℚ)
    (stepIdx : ℕ) (targetPitch : ℤ) : Option AiNote :=
  match aiSequence with
  | none => none
  | some s =>
      s.notes.find? fun note =>
        note.pitch == targetPitch &&
          round (note.startTime / stepDuration) == (stepIdx : ℤ)

/-- getHumanizedNote of HumanizeEngine.js: returns the humanized time and the
rounded, clamped velocity for one note occurrence. -/
def getHumanizedNote (trackIdx stepIdx : ℕ) (baseTime : ℚ)
    (aiSequence : Option AiSequence) (humanizeAmount : ℚ)
    (pitchMap : ℕ → ℤ) (bpm : ℚ)
    (trackSettings : Option (ℕ → Option TrackSetting))
    (hihatMode : HihatMode) (rnd : HumanizeRand) : ℚ × ℤ :=
  let defaultVelocity : ℤ := 100
  let targetPitch := pitchMap trackIdx
  if tsSwingLocked trackSettings trackIdx = true ∨
      (hihatMode = HihatMode.live ∧ targetPitch = DRUM_PITCHES_KICK) then
    (baseTime, defaultVelocity)
  else if humanizeAmount = 0 then
    (baseTime, defaultVelocity)
  else
    let effectiveBpm := min bpm DILLA_MAX_BPM
    let stepDuration := 60 / effectiveBpm / 4
    let expectedGridTime := (stepIdx : ℚ) * stepDuration
    let swingMultiplier := trackSwingMultiplier hihatMode targetPitch
    let pushPullOffset :=
      getPushPullOffset targetPitch humanizeAmount hihatMode rnd.pushPull
    let tupletSwing :=
      if stepIdx % 2 = 1 then
        getTupletOffset stepDuration humanizeAmount *
          (1 - (1 - humanizeAmount) ^ 3) * swingMultiplier * (15/100)
      else 0
    let aiNote := findAiNote aiSequence stepDuration stepIdx targetPitch
    let aiOffset :=
      match aiNote with
      | some n => (n.startTime - expectedGridTime) * humanizeAmount *
          swingMultiplier
      | none => 0
    let microVariation :=
      match aiNote with
      | some n =>
          max (-(1/100)) (min (1/100)
              (n.startTime - (stepIdx : ℚ) * stepDuration)) *
            AI_BLEND_microTimingWeight * humanizeAmount
      | none => getMicroVariation humanizeAmount rnd.micro * swingMultiplier
    let rawOffset := pushPullOffset + aiOffset + tupletSwing + microVariation
    let totalOffset := quantizeToMPCTicks rawOffset bpm
    let humanizedTime := baseTime + totalOffset
    let finalVelocity : ℚ :=
      if targetPitch = DRUM_PITCHES_HIHAT_CLOSED then
        (if humanizeAmount = 0 then (100 : ℚ)
         else if stepIdx % 4 = 0 then 100 + humanizeAmount * 27
         else if stepIdx % 4 = 2 then 70 - humanizeAmount * 20
         else 60 - humanizeAmount * 20) + rnd.vel * 10 * humanizeAmount
      else
        match aiNote with
        | some n =>
            if n.velocity ≠ 0 ∧ 0 < humanizeAmount then
              let aiVelocityWeight := AI_BLEND_velocityWeight * humanizeAmount
              100 * (1 - aiVelocityWeight) + n.velocity * aiVelocityWeight
            else 100
        | none => 100
  (humanizedTime, round (max 1 (min 127 finalVelocity)))

-- GhostNoteGenerator.js (plain revision under src/src/core).  The source name
-- offsetRatio is rendered as offsetScale here.  Random draws: u gives the
-- Gaussian gate sample per candidate step, jr the Math.random jitter draw,
-- gv the velocity sample.

/-- Minimum timing offset ratio: ghosts are always given at least 30 percent
of the timing offset. -/
def MIN_OFFSET_SCALE : ℚ := 3/10

/-- Effective offset ratio: the humanize amount floored at 0.3. -/
def getEffectiveOffsetScale (humanizeAmount : ℚ) : ℚ :=
  max MIN_OFFSET_SCALE humanizeAmount

/-- Snare ghosts: a pre-beat drag one step before each backbeat and a
post-beat chatter one step after, on steps the pattern leaves empty. -/
def generateSnareGhosts (steps : ℕ → ℕ → Bool)
    (stepDuration offsetScale quantity bpm : ℚ)
    (u gv : ℕ → ℚ) : List Ghost :=
  ([4, 12] : List ℕ).flatMap fun mainStep =>
    (if !(steps 1 (mainStep - 1)) &&
        gaussianProbability ((6/10) * quantity) (u (mainStep - 1)) then
      [{ pitch := DRUM_PITCHES_SNARE, step := mainStep - 1,
         startTime := quantizeToMPCTicks
           (((mainStep - 1 : ℕ) : ℚ) * stepDuration +
             stepDuration * (3/10) * offsetScale) bpm,
         velocity := gaussianVelocity (25 + offsetScale * 10) 5
           (gv (mainStep - 1)) }]
    else []) ++
    (if !(steps 1 (mainStep + 1)) &&
        gaussianProbability ((6/10) * quantity * (7/10)) (u (mainStep + 1)) then
      [{ pitch := DRUM_PITCHES_SNARE, step := mainStep + 1,
         startTime := quantizeToMPCTicks
           (((mainStep + 1 : ℕ) : ℚ) * stepDuration +
             stepDuration * (2/10) * offsetScale) bpm,
         velocity := gaussianVelocity (22 + offsetScale * 8) 4
           (gv (mainStep + 1)) }]
    else [])

/-- Kick ghosts: weighted stumble candidates on the weak sixteenths. -/
def generateKickGhosts (steps : ℕ → ℕ → Bool)
    (stepDuration offsetScale quantity bpm : ℚ)
    (u gv : ℕ → ℚ) : List Ghost :=
  ([(15, 8/10), (7, 5/10), (3, 4/10), (11, 45/100)] : List (ℕ × ℚ)).flatMap
    fun candidate =>
      if steps 0 candidate.1 then []
      else if gaussianProbability ((5/10) * quantity * candidate.2)
          (u candidate.1) then
        [{ pitch := DRUM_PITCHES_KICK, step := candidate.1,
           startTime := quantizeToMPCTicks
             ((candidate.1 : ℚ) * stepDuration +
               stepDuration * (25/100) * offsetScale) bpm,
           velocity := gaussianVelocity (60 + offsetScale * 15) 10
             (gv candidate.1) }]
      else []

/-- Closed hi-hat skip ghosts on all odd steps, with a randomized late jitter
of 15 to 35 milliseconds scaled by the offset ratio. -/
def generateClosedHiHatGhosts (steps : ℕ → ℕ → Bool)
    (stepDuration offsetScale quantity bpm : ℚ)
    (u jr gv : ℕ → ℚ) : List Ghost :=
  ([1, 3, 5, 7, 9, 11, 13, 15] : List ℕ).flatMap fun step =>
    if steps 2 step then []
    else if gaussianProbability ((45/100) * quantity) (u step) then
      [{ pitch := DRUM_PITCHES_HIHAT_CLOSED, step := step,
         startTime := quantizeToMPCTicks
           ((step : ℚ) * stepDuration +
             (15 + jr step * 20) / 1000 * offsetScale) bpm,
         velocity := gaussianVelocity (25 + offsetScale * 10) 8 (gv step) }]
    else []

/-- Open hi-hat slurp ghosts before downbeats, skipped when either hi-hat
voice already occupies the step. -/
def generateOpenHiHatGhosts (steps : ℕ → ℕ → Bool)
    (stepDuration offsetScale quantity bpm : ℚ)
    (u gv : ℕ → ℚ) : List Ghost :=
  ([3, 7, 11, 15] : List ℕ).flatMap fun step =>
    if steps 3 step then []
    else if steps 2 step then []
    else if gaussianProbability ((4/10) * quantity) (u step) then
      [{ pitch := DRUM_PITCHES_HIHAT_OPEN, step := step,
         startTime := quantizeToMPCTicks
           ((step : ℚ) * stepDuration +
             stepDuration * (15/100) * offsetScale) bpm,
         velocity := gaussianVelocity (55 + offsetScale * 20) 10 (gv step) }]
    else []

/-- extractGhostNotes of the plain GhostNoteGenerator.js: per-track quantity
gates, then snare, kick, closed hi-hat and open hi-hat generators in order.
The groove sequence argument is unused in this revision, kept for API
compatibility like the source. -/
def extractGhostNotes (aiSequence : Option AiSequence)
    (originalSteps : ℕ → ℕ → Bool) (bpm humanizeAmount : ℚ)
    (trackSettings : Option (ℕ → Option TrackSetting))
    (u : ℕ → ℕ → ℚ) (jr : ℕ → ℚ) (gv : ℕ → ℕ → ℚ) : List Ghost :=
  let stepDuration := 60 / bpm / 4
  let offsetScale := getEffectiveOffsetScale humanizeAmount
  (if tsGhostQuantity trackSettings 1 / 100 > 0 then
    generateSnareGhosts originalSteps stepDuration offsetScale
      (tsGhostQuantity trackSettings 1 / 100) bpm (u 1) (gv 1)
  else []) ++
  (if tsGhostQuantity trackSettings 0 / 100 > 0 then
    generateKickGhosts originalSteps stepDuration offsetScale
      (tsGhostQuantity trackSettings 0 / 100) bpm (u 0) (gv 0)
  else []) ++
  (if tsGhostQuantity trackSettings 2 / 100 > 0 then
    generateClosedHiHatGhosts originalSteps stepDuration offsetScale
      (tsGhostQuantity trackSettings 2 / 100) bpm (u 2) jr (gv 2)
  else []) ++
  (if tsGhostQuantity trackSettings 3 / 100 > 0 then
    generateOpenHiHatGhosts originalSteps stepDuration offsetScale
      (tsGhostQuantity trackSettings 3 / 100) bpm (u 3) (gv 3)
  else [])

-- Mode-aware GhostNoteGenerator revision (src/unnamed/part_005), M suffix.

/-- Nearest groove-model velocity for a pitch within one step of the ghost
position, falling back to the formula velocity. -/
def findNearestAIVelocity (aiSequence : Option AiSequence) (pitch : ℤ)
    (step : ℕ) (stepDuration defaultVelocity : ℚ) : ℚ :=
  match aiSequence with
  | none => defaultVelocity
  | some s =>
      match s.notes.find? (fun n =>
          n.pitch == pitch &&
            decide ((round (n.startTime / stepDuration) - (step : ℤ)).natAbs
              ≤ 1)) with
      | some n => n.velocity
      | none => defaultVelocity

/-- Blend of formula and groove-model ghost velocity at the fixed weight. -/
def blendGhostVelocity (formulaVelocity aiVelocity : ℚ) : ℚ :=
  formulaVelocity * (1 - AI_BLEND_ghostVelocityWeight) +
    aiVelocity * AI_BLEND_ghostVelocityWeight

/-- Mode-specific extra offset for closed hi-hat skip ghosts: limp adds an
8 to 12 ms drag, live subtracts a 5 to 10 ms rush; r is the Math.random
draw of the taken branch. -/
def closedModeOffsetM (mode : HihatMode) (r : ℚ) : ℚ :=
  match mode with
  | HihatMode.limp => (8 + r * 4) / 1000
  | HihatMode.live => -((5 + r * 5) / 1000)
  | HihatMode.friction => 0

/-- Mode-specific extra offset for open hi-hat slurp ghosts: live subtracts a
3 to 8 ms rush, the other modes leave the default timing. -/
def openModeOffsetM (mode : HihatMode) (r : ℚ) : ℚ :=
  match mode with
  | HihatMode.live => -((3 + r * 5) / 1000)
  | _ => 0

/-- Pre-quantization time of a closed hi-hat skip ghost in the mode-aware
revision: grid time, randomized late jitter scaled by the offset ratio, and
the mode offset. -/
def closedSkipBaseTimeM (step : ℕ) (stepDuration offsetScale rJit : ℚ)
    (mode : HihatMode) (rMode : ℚ) : ℚ :=
  (step : ℚ) * stepDuration + (15 + rJit * 20) / 1000 * offsetScale +
    closedModeOffsetM mode rMode

/-- Pre-quantization time of an open hi-hat slurp ghost in the mode-aware
revision. -/
def openSlurpBaseTimeM (step : ℕ) (stepDuration offsetScale : ℚ)
    (mode : HihatMode) (rMode : ℚ) : ℚ :=
  (step : ℚ) * stepDuration + stepDuration * (15/100) * offsetScale +
    openModeOffsetM mode rMode

/-- Mode-aware closed hi-hat ghost generator of src/unnamed/part_005. -/
def generateClosedHiHatGhostsM (steps : ℕ → ℕ → Bool)
    (stepDuration offsetScale quantity bpm : ℚ) (mode : HihatMode)
    (aiSequence : Option AiSequence) (u jr rm gv : ℕ → ℚ) : List Ghost :=
  ([1, 3, 5, 7, 9, 11, 13, 15] : List ℕ).flatMap fun step =>
    if steps 2 step then []
    else if gaussianProbability ((45/100) * quantity) (u step) then
      [{ pitch := DRUM_PITCHES_HIHAT_CLOSED, step := step,
         startTime := quantizeToMPCTicks
           (closedSkipBaseTimeM step stepDuration offsetScale (jr step)
             mode (rm step)) bpm,
         velocity := gaussianVelocity
           (blendGhostVelocity (25 + offsetScale * 10)
             (findNearestAIVelocity aiSequence DRUM_PITCHES_HIHAT_CLOSED step
               stepDuration (25 + offsetScale * 10))) 22 (gv step) }]
    else []

/-- Mode-aware open hi-hat ghost generator of src/unnamed/part_005. -/
def generateOpenHiHatGhostsM (steps : ℕ → ℕ → Bool)
    (stepDuration offsetScale quantity bpm : ℚ) (mode : HihatMode)
    (aiSequence : Option AiSequence) (u rm gv : ℕ → ℚ) : List Ghost :=
  ([3, 7, 11, 15] : List ℕ).flatMap fun step =>
    if steps 3 step then []
    else if steps 2 step then []
    else if gaussianProbability ((4/10) * quantity) (u step) then
      [{ pitch := DRUM_PITCHES_HIHAT_OPEN, step := step,
         startTime := quantizeToMPCTicks
           (openSlurpBaseTimeM step stepDuration offsetScale mode (rm step))
           bpm,
         velocity := gaussianVelocity
           (blendGhostVelocity (55 + offsetScale * 20)
             (findNearestAIVelocity aiSequence DRUM_PITCHES_HIHAT_OPEN step
               stepDuration (55 + offsetScale * 20))) 25 (gv step) }]
    else []

-- GrooveController.handleTick (src/unnamed/part_007, lines 174 to 184):
-- each cached ghost assigned to the current step is dispatched at the tick
-- time plus its stored offset from its grid position, rescaled by the
-- current humanize amount.

/-- Effective dispatch time of a cached ghost note at tick time. -/
def ghostDispatchTime (nextNoteTime ghostStartTime : ℚ) (ghostStep : ℕ)
    (bpm humanizeAmount : ℚ) : ℚ :=
  let stepDuration := 60 / bpm / 4
  let expectedGridTime := (ghostStep : ℚ) * stepDuration
  let ghostOffset := ghostStartTime - expectedGridTime
  nextNoteTime + ghostOffset * humanizeAmount

-- Clock (src/unnamed/part_009): step counter and next note time.

/-- The mutable clock state: the 16th-note step counter and the absolute time
of the next note. -/
structure ClockState where
  currentStep : ℕ
  nextNoteTime : ℚ
deriving DecidableEq

/-- Clock.advanceNote: read the tempo (falling back to 120 when the accessor
yields a falsy value), add a quarter of a beat to the next note time and
advance the step counter modulo 16. -/
def advanceNote (s : ClockState) (tempo : ℚ) : ClockState :=
  let bpm := if tempo = 0 then 120 else tempo
  let secondsPerBeat := 60 / bpm
  { currentStep := (s.currentStep + 1) % 16,
    nextNoteTime := s.nextNoteTime + (25/100) * secondsPerBeat }

-- Store (src/src/core/Store.js, second revision) and the tempo input
-- handler of src/src/main.js.

/-- Transport slice of the store state. -/
structure Transport where
  bpm : ℚ
  isPlaying : Bool
deriving DecidableEq

/-- Global groove settings slice. -/
structure GrooveSettings where
  hihatMode : HihatMode
deriving DecidableEq

/-- The store state of the second state.js revision.  Steps are the active
flags keyed by track and step index. -/
structure StoreState where
  transport : Transport
  steps : ℕ × ℕ → Bool
  humanizeValue : ℚ
  grooveSettings : GrooveSettings
  trackSettings : ℕ → Option TrackSetting

/-- The actions dispatched in the sources: the eight types the reducer
handles, plus the three UI action types it does not. -/
inductive StoreAction where
  | setTempo (payload : ℚ)
  | toggle (payload : ℕ × ℕ)
  | togglePlay
  | resetSteps
  | setHumanize (payload : ℚ)
  | setTrackHumanize (track : ℕ) (value : ℚ)
  | toggleTrackSwing (payload : ℕ)
  | toggleTrackGhosts (payload : ℕ)
  | setHihatMode (payload : HihatMode)
  | toggleTrackSwingLock (payload : ℕ)
  | setTrackGhostQuantity (track : ℕ) (value : ℚ)

/-- A track settings entry with every field absent, standing in for the empty
object a JavaScript spread of an absent entry produces. -/
def emptyTrackSetting : TrackSetting := ⟨none, none, none, none, none⟩

/-- Rebuild the track settings map with one entry replaced, mirroring the
object spread the reducer performs on the addressed track entry. -/
def updateTrackSetting (ts : ℕ → Option TrackSetting) (t : ℕ)
    (f : TrackSetting → TrackSetting) : ℕ → Option TrackSetting :=
  fun i => if i = t then some (f ((ts t).getD emptyTrackSetting)) else ts i

/-- The reducer of Store.js (second revision).  A handled action builds a
fresh state object; the default branch returns the incoming state itself,
modelled as none so that dispatch can test reference equality. -/
def reducer (s : StoreState) (a : StoreAction) : Option StoreState :=
  match a with
  | StoreAction.setTempo v =>
      some { s with transport := { s.transport with bpm := v } }
  | StoreAction.toggle k =>
      some { s with steps := fun k2 =>
        if k2 = k then !(s.steps k2) else s.steps k2 }
  | StoreAction.togglePlay =>
      some { s with transport :=
        { s.transport with isPlaying := !s.transport.isPlaying } }
  | StoreAction.resetSteps =>
      some { s with steps := fun _ => false }
  | StoreAction.setHumanize v =>
      some { s with humanizeValue := v }
  | StoreAction.setTrackHumanize t v =>
      some { s with
        trackSettings :=
          updateTrackSetting s.trackSettings t
            (fun old => { old with humanize := some v }) }
  | StoreAction.toggleTrackSwing t =>
      some { s with
        trackSettings :=
          updateTrackSetting s.trackSettings t
            (fun old => { old with
              swingEnabled := some (!(old.swingEnabled.getD false)) }) }
  | StoreAction.toggleTrackGhosts t =>
      some { s with
        trackSettings :=
          updateTrackSetting s.trackSettings t
            (fun old => { old with
              ghostsEnabled := some (!(old.ghostsEnabled.getD false)) }) }
  | StoreAction.setHihatMode _ => none
  | StoreAction.toggleTrackSwingLock _ => none
  | StoreAction.setTrackGhostQuantity _ _ => none

/-- Store.dispatch: run the reducer; when it returns the same state object
(the default branch), keep the state and skip notify.  The boolean records
whether the subscribed observers were invoked. -/
def dispatch (s : StoreState) (a : StoreAction) : StoreState × Bool :=
  match reducer s a with
  | none => (s, false)
  | some s2 => (s2, true)

/-- The default active pattern of state.js (second revision). -/
def defaultActiveSteps (k : ℕ × ℕ) : Bool :=
  decide (k ∈ ([(0, 0), (0, 4), (0, 8), (0, 12), (1, 4), (1, 12),
    (2, 0), (2, 2), (2, 4), (2, 6), (2, 8), (2, 10), (2, 12), (2, 14),
    (3, 14)] : List (ℕ × ℕ)))

/-- The initial store state of state.js (second revision): bpm 88, stopped,
zero humanize, friction mode, snare ghost quantity 50, all tracks
unlocked. -/
def initialState : StoreState where
  transport := ⟨88, false⟩
  steps := defaultActiveSteps
  humanizeValue := 0
  grooveSettings := ⟨HihatMode.friction⟩
  trackSettings := fun t =>
    if t = 0 then some ⟨none, none, none, some false, some 0⟩
    else if t = 1 then some ⟨none, none, none, some false, some 50⟩
    else if t = 2 then some ⟨none, none, none, some false, some 0⟩
    else if t = 3 then some ⟨none, none, none, some false, some 0⟩
    else none

/-- The tempo input change handler of main.js: a parse failure (NaN, modelled
as none) or a zero value is rejected and the state kept; any other parsed
value is dispatched as SET_TEMPO. -/
def handleTempoInput (s : StoreState) (tempoVal : Option ℚ) : StoreState :=
  match tempoVal with
  | none => s
  | some v => if v = 0 then s else (dispatch s (StoreAction.setTempo v)).1

-- Shared helper lemmas about quantization.

/-- Quantization always lands on an integer number of hardware ticks. -/
lemma quantizeToMPCTicks_eq_round_mul (x bpm : ℚ) :
    quantizeToMPCTicks x bpm
      = ((round (x / (60 / bpm / 96)) : ℤ) : ℚ) * (60 / bpm / 96) := rfl

/-- A step grid time is exactly 24 ticks, so quantizing a grid time plus an
offset splits into the grid ticks plus the rounded offset ticks. -/
lemma quantize_grid_add (bpm : ℚ) (hb : 0 < bpm) (s : ℕ) (off : ℚ) :
    quantizeToMPCTicks ((s : ℚ) * (60 / bpm / 4) + off) bpm
      = (((24 * s : ℤ) + round (off / (60 / bpm / 96)) : ℤ) : ℚ) *
          (60 / bpm / 96) := by
  have hbpm : bpm ≠ 0 := ne_of_gt hb
  have harg : ((s : ℚ) * (60 / bpm / 4) + off) / (60 / bpm / 96)
      = ((24 * s : ℤ) : ℚ) + off / (60 / bpm / 96) := by
    field_simp
    ring
  rw [quantizeToMPCTicks_eq_round_mul, harg, round_int_add]

/-- If the offset is at least half a tick, the quantized time differs from
the bare grid time. -/
lemma quantize_grid_add_ne (bpm : ℚ) (hb : 0 < bpm) (s : ℕ) (off : ℚ)
    (hoff : 1/2 ≤ off / (60 / bpm / 96)) :
    quantizeToMPCTicks ((s : ℚ) * (60 / bpm / 4) + off) bpm
      ≠ (s : ℚ) * (60 / bpm / 4) := by
  have hbpm : bpm ≠ 0 := ne_of_gt hb
  have htick : (0 : ℚ) < 60 / bpm / 96 := by positivity
  have hround : (1 : ℤ) ≤ round (off / (60 / bpm / 96)) := by
    rw [round_eq]
    exact Int.le_floor.mpr (by push_cast; linarith)
  rw [quantize_grid_add bpm hb s off]
  intro hEq
  have hgrid : (s : ℚ) * (60 / bpm / 4)
      = ((24 * s : ℤ) : ℚ) * (60 / bpm / 96) := by
    push_cast
    field_simp
    ring
  rw [hgrid] at hEq
  have := mul_right_cancel₀ (ne_of_gt htick) hEq
  have : ((24 * s : ℤ) + round (off / (60 / bpm / 96)) : ℤ)
      = (24 * s : ℤ) := by exact_mod_cast this
  omega

-- Membership shape lemmas for the plain ghost generators.

/-- Every snare ghost carries the snare pitch and a quantized grid time plus
a step-proportional late offset of 30 or 20 percent of a step. -/
lemma mem_generateSnareGhosts {g : Ghost} {steps : ℕ → ℕ → Bool}
    {d sc q bpm : ℚ} {u gv : ℕ → ℚ}
    (hg : g ∈ generateSnareGhosts steps d sc q bpm u gv) :
    g.pitch = DRUM_PITCHES_SNARE ∧ ∃ c : ℚ, (c = 3/10 ∨ c = 2/10) ∧
      g.startTime = quantizeToMPCTicks ((g.step : ℚ) * d + d * c * sc) bpm := by
  simp only [generateSnareGhosts, List.mem_flatMap] at hg
  obtain ⟨m, _, hg⟩ := hg
  rw [List.mem_append] at hg
  rcases hg with hg | hg <;> split at hg <;>
    simp only [List.mem_singleton, List.not_mem_nil] at hg <;> subst hg
  · exact ⟨rfl, 3/10, Or.inl rfl, rfl⟩
  · exact ⟨rfl, 2/10, Or.inr rfl, rfl⟩

/-- Every kick ghost carries the kick pitch and a quantized grid time plus a
late offset of 25 percent of a step. -/
lemma mem_generateKickGhosts {g : Ghost} {steps : ℕ → ℕ → Bool}
    {d sc q bpm : ℚ} {u gv : ℕ → ℚ}
    (hg : g ∈ generateKickGhosts steps d sc q bpm u gv) :
    g.pitch = DRUM_PITCHES_KICK ∧
      g.startTime = quantizeToMPCTicks
        ((g.step : ℚ) * d + d * (25/100) * sc) bpm := by
  simp only [generateKickGhosts, List.mem_flatMap] at hg
  obtain ⟨m, _, hg⟩ := hg
  split at hg
  · simp at hg
  · split at hg <;> simp only [List.mem_singleton, List.not_mem_nil] at hg
    subst hg
    exact ⟨rfl, rfl⟩

/-- Every closed hi-hat ghost carries the closed hi-hat pitch and a quantized
grid time plus an absolute millisecond jitter scaled by the offset ratio. -/
lemma mem_generateClosedHiHatGhosts {g : Ghost} {steps : ℕ → ℕ → Bool}
    {d sc q bpm : ℚ} {u jr gv : ℕ → ℚ}
    (hg : g ∈ generateClosedHiHatGhosts steps d sc q bpm u jr gv) :
    g.pitch = DRUM_PITCHES_HIHAT_CLOSED ∧ ∃ j : ℚ,
      g.startTime = quantizeToMPCTicks
        ((g.step : ℚ) * d + (15 + j * 20) / 1000 * sc) bpm := by
  simp only [generateClosedHiHatGhosts, List.mem_flatMap] at hg
  obtain ⟨m, _, hg⟩ := hg
  split at hg
  · simp at hg
  · split at hg <;> simp only [List.mem_singleton, List.not_mem_nil] at hg
    subst hg
    exact ⟨rfl, jr m, rfl⟩

/-- Every open hi-hat ghost carries the open hi-hat pitch and a quantized
grid time plus a late offset of 15 percent of a step. -/
lemma mem_generateOpenHiHatGhosts {g : Ghost} {steps : ℕ → ℕ → Bool}
    {d sc q bpm : ℚ} {u gv : ℕ → ℚ}
    (hg : g ∈ generateOpenHiHatGhosts steps d sc q bpm u gv) :
    g.pitch = DRUM_PITCHES_HIHAT_OPEN ∧
      g.startTime = quantizeToMPCTicks
        ((g.step : ℚ) * d + d * (15/100) * sc) bpm := by
  simp only [generateOpenHiHatGhosts, List.mem_flatMap] at hg
  obtain ⟨m, _, hg⟩ := hg
  split at hg
  · simp at hg
  · split at hg
    · simp at hg
    · split at hg <;> simp only [List.mem_singleton, List.not_mem_nil] at hg
      subst hg
      exact ⟨rfl, rfl⟩

/-- Case analysis for membership in extractGhostNotes: a ghost comes from one
of the four per-voice generators, each gated by a positive quantity, and its
start time is the quantization of its grid time plus the late offset of that
voice. -/
lemma mem_extractGhostNotes_cases {g : Ghost} {a : Option AiSequence}
    {steps : ℕ → ℕ → Bool} {bpm h : ℚ}
    {ts : Option (ℕ → Option TrackSetting)}
    {u : ℕ → ℕ → ℚ} {jr : ℕ → ℚ} {gv : ℕ → ℕ → ℚ}
    (hg : g ∈ extractGhostNotes a steps bpm h ts u jr gv) :
    (g.pitch = DRUM_PITCHES_SNARE ∧ 0 < tsGhostQuantity ts 1 / 100 ∧
      ∃ c : ℚ, (c = 3/10 ∨ c = 2/10) ∧
        g.startTime = quantizeToMPCTicks ((g.step : ℚ) * (60 / bpm / 4) +
          (60 / bpm / 4) * c * getEffectiveOffsetScale h) bpm) ∨
    (g.pitch = DRUM_PITCHES_KICK ∧ 0 < tsGhostQuantity ts 0 / 100 ∧
      g.startTime = quantizeToMPCTicks ((g.step : ℚ) * (60 / bpm / 4) +
        (60 / bpm / 4) * (25/100) * getEffectiveOffsetScale h) bpm) ∨
    (g.pitch = DRUM_PITCHES_HIHAT_CLOSED ∧ 0 < tsGhostQuantity ts 2 / 100 ∧
      ∃ j : ℚ, g.startTime = quantizeToMPCTicks ((g.step : ℚ) * (60 / bpm / 4)
        + (15 + j * 20) / 1000 * getEffectiveOffsetScale h) bpm) ∨
    (g.pitch = DRUM_PITCHES_HIHAT_OPEN ∧ 0 < tsGhostQuantity ts 3 / 100 ∧
      g.startTime = quantizeToMPCTicks ((g.step : ℚ) * (60 / bpm / 4) +
        (60 / bpm / 4) * (15/100) * getEffectiveOffsetScale h) bpm) := by
  simp only [extractGhostNotes, List.mem_append] at hg
  rcases hg with ((hg | hg) | hg) | hg
  · split at hg
    · next hq =>
        obtain ⟨hp, c, hc, hst⟩ := mem_generateSnareGhosts hg
        exact Or.inl ⟨hp, hq, c, hc, hst⟩
    · simp at hg
  · split at hg
    · next hq =>
        obtain ⟨hp, hst⟩ := mem_generateKickGhosts hg
        exact Or.inr (Or.inl ⟨hp, hq, hst⟩)
    · simp at hg
  · split at hg
    · next hq =>
        obtain ⟨hp, j, hst⟩ := mem_generateClosedHiHatGhosts hg
        exact Or.inr (Or.inr (Or.inl ⟨hp, hq, j, hst⟩))
    · simp at hg
  · split at hg
    · next hq =>
        obtain ⟨hp, hst⟩ := mem_generateOpenHiHatGhosts hg
        exact Or.inr (Or.inr (Or.inr ⟨hp, hq, hst⟩))
    · simp at hg

-- Claim theorems.

/-- C2: for every track and step, at humanize intensity 0 getHumanizedNote
returns exactly the grid time passed in as baseTime together with the fixed
default velocity 100, regardless of bpm, groove sequence, track settings or
hi-hat mode. -/
theorem humanize_zero_intensity_returns_grid
    (trackIdx stepIdx : ℕ) (baseTime : ℚ) (aiSequence : Option AiSequence)
    (pitchMap : ℕ → ℤ) (bpm : ℚ)
    (trackSettings : Option (ℕ → Option TrackSetting))
    (hihatMode : HihatMode) (rnd : HumanizeRand) :
    getHumanizedNote trackIdx stepIdx baseTime aiSequence 0 pitchMap bpm
      trackSettings hihatMode rnd = (baseTime, 100) := by
  unfold getHumanizedNote
  split
  · simp
  · next h => exact absurd rfl h

/-- C3: a swing-locked track, and the kick track in live mode, bypass the
whole humanization pipeline: getHumanizedNote returns exactly the grid time
and the default velocity 100 at every intensity, bpm and groove sequence. -/
theorem swing_locked_returns_grid
    (trackIdx stepIdx : ℕ) (baseTime : ℚ) (aiSequence : Option AiSequence)
    (humanizeAmount : ℚ) (pitchMap : ℕ → ℤ) (bpm : ℚ)
    (trackSettings : Option (ℕ → Option TrackSetting))
    (hihatMode : HihatMode) (rnd : HumanizeRand)
    (hbypass : tsSwingLocked trackSettings trackIdx = true ∨
      (hihatMode = HihatMode.live ∧ pitchMap trackIdx = DRUM_PITCHES_KICK)) :
    getHumanizedNote trackIdx stepIdx baseTime aiSequence humanizeAmount
      pitchMap bpm trackSettings hihatMode rnd = (baseTime, 100) := by
  unfold getHumanizedNote
  rw [if_pos hbypass]

/-- Witness for C3 at a concrete input: track 1 explicitly swing locked, and
separately the kick track auto-locked by live mode. -/
theorem swing_locked_returns_grid_witness :
    getHumanizedNote 1 5 (7/2) none (9/10) TRACK_TO_PITCH 88
      (some fun _ => some ⟨none, none, none, some true, none⟩)
      HihatMode.friction ⟨0, 0, 0⟩ = (7/2, 100) ∧
    getHumanizedNote 0 5 (7/2) none (9/10) TRACK_TO_PITCH 88 none
      HihatMode.live ⟨0, 0, 0⟩ = (7/2, 100) :=
  ⟨swing_locked_returns_grid 1 5 (7/2) none (9/10) TRACK_TO_PITCH 88
      (some fun _ => some ⟨none, none, none, some true, none⟩)
      HihatMode.friction ⟨0, 0, 0⟩ (Or.inl (by decide)),
   swing_locked_returns_grid 0 5 (7/2) none (9/10) TRACK_TO_PITCH 88 none
      HihatMode.live ⟨0, 0, 0⟩ (Or.inr ⟨rfl, by decide⟩)⟩

/-- C5: with identical random draws, pattern, tempo, quantity and offset
ratio, the pre-quantization time of a closed hi-hat skip ghost in the
mode-aware generator is strictly later in limp mode and strictly earlier in
live mode than in friction mode, and the open hi-hat slurp ghost time is
strictly earlier in live mode than in friction mode. -/
theorem hihat_mode_shifts_ghost_jitter
    (step : ℕ) (stepDuration offsetScale rJit rMode : ℚ)
    (hr : 0 ≤ rMode) :
    closedSkipBaseTimeM step stepDuration offsetScale rJit
        HihatMode.friction rMode
      < closedSkipBaseTimeM step stepDuration offsetScale rJit
        HihatMode.limp rMode ∧
    closedSkipBaseTimeM step stepDuration offsetScale rJit
        HihatMode.live rMode
      < closedSkipBaseTimeM step stepDuration offsetScale rJit
        HihatMode.friction rMode ∧
    openSlurpBaseTimeM step stepDuration offsetScale HihatMode.live rMode
      < openSlurpBaseTimeM step stepDuration offsetScale
        HihatMode.friction rMode := by
  unfold closedSkipBaseTimeM openSlurpBaseTimeM closedModeOffsetM
    openModeOffsetM
  refine ⟨?_, ?_, ?_⟩ <;> simp <;> linarith

/-- Witness for C5 at a concrete input. -/
theorem hihat_mode_shifts_ghost_jitter_witness :
    closedSkipBaseTimeM 1 (1/4) (3/10) 0 HihatMode.friction 0
      < closedSkipBaseTimeM 1 (1/4) (3/10) 0 HihatMode.limp 0 ∧
    closedSkipBaseTimeM 1 (1/4) (3/10) 0 HihatMode.live 0
      < closedSkipBaseTimeM 1 (1/4) (3/10) 0 HihatMode.friction 0 ∧
    openSlurpBaseTimeM 1 (1/4) (3/10) HihatMode.live 0
      < openSlurpBaseTimeM 1 (1/4) (3/10) HihatMode.friction 0 :=
  hihat_mode_shifts_ghost_jitter 1 (1/4) (3/10) 0 0 le_rfl

/-- C8: for a positive tempo read from the accessor, one Clock.advanceNote
adds exactly one step duration of 60 divided by bpm divided by 4 to the next
note time, so the next note time strictly increases, and the step counter
advances to the successor modulo 16, staying in the 0..15 cycle. -/
theorem clock_advance_step_duration_and_wrap
    (s : ClockState) (tempo : ℚ) (ht : 0 < tempo) :
    (advanceNote s tempo).nextNoteTime
        = s.nextNoteTime + 60 / tempo / 4 ∧
    s.nextNoteTime < (advanceNote s tempo).nextNoteTime ∧
    (advanceNote s tempo).currentStep = (s.currentStep + 1) % 16 ∧
    (advanceNote s tempo).currentStep < 16 := by
  have hne : tempo ≠ 0 := ne_of_gt ht
  have hstep : (0 : ℚ) < 60 / tempo / 4 := by positivity
  unfold advanceNote
  rw [if_neg hne]
  refine ⟨by ring, by simp; linarith [hstep], rfl, Nat.mod_lt _ (by norm_num)⟩

/-- Witness for C8 at a concrete input. -/
theorem clock_advance_step_duration_and_wrap_witness :
    (advanceNote ⟨15, 2⟩ 120).nextNoteTime = 2 + 60 / 120 / 4 ∧
    (2 : ℚ) < (advanceNote ⟨15, 2⟩ 120).nextNoteTime ∧
    (advanceNote ⟨15, 2⟩ 120).currentStep = (15 + 1) % 16 ∧
    (advanceNote ⟨15, 2⟩ 120).currentStep < 16 :=
  clock_advance_step_duration_and_wrap ⟨15, 2⟩ 120 (by norm_num)

/-- C9: a track whose ghostQuantity setting is 0 gets no ghost notes from
extractGhostNotes: for every pattern, positive bpm, intensity and random
draws, no generated ghost carries that track pitch. -/
theorem ghost_quantity_zero_no_ghosts_for_track
    (aiSequence : Option AiSequence) (steps : ℕ → ℕ → Bool)
    (bpm humanizeAmount : ℚ) (ts : Option (ℕ → Option TrackSetting))
    (u : ℕ → ℕ → ℚ) (jr : ℕ → ℚ) (gv : ℕ → ℕ → ℚ) (track : ℕ)
    (hbpm : 0 < bpm) (hq : tsGhostQuantity ts track = 0) :
    ∀ g ∈ extractGhostNotes aiSequence steps bpm humanizeAmount ts u jr gv,
      g.pitch ≠ TRACK_TO_PITCH track := by
  intro g hg
  rcases mem_extractGhostNotes_cases hg with
    ⟨hp, hqpos, -⟩ | ⟨hp, hqpos, -⟩ | ⟨hp, hqpos, -⟩ | ⟨hp, hqpos, -⟩ <;>
    rw [hp] <;> unfold TRACK_TO_PITCH <;> split_ifs with h1 h2 h3 h4 <;>
    first
      | decide
      | (subst_vars; rw [hq] at hqpos; norm_num at hqpos)

/-- Witness for C9 at a concrete input: kick ghost quantity 0, snare 50,
default pattern empty, bpm 88. -/
theorem ghost_quantity_zero_no_ghosts_for_track_witness :
    (extractGhostNotes none (fun _ _ => false) 88 (1/2)
      (some fun t => if t = 1 then some ⟨none, none, none, none, some 50⟩
        else some ⟨none, none, none, none, some 0⟩)
      (fun _ _ => 0) (fun _ => 0) (fun _ _ => 0)).all
      (fun g => g.pitch != TRACK_TO_PITCH 0) = true := by
  have hall := ghost_quantity_zero_no_ghosts_for_track none
    (fun _ _ => false) 88 (1/2)
    (some fun t => if t = 1 then some ⟨none, none, none, none, some 50⟩
      else some ⟨none, none, none, none, some 0⟩)
    (fun _ _ => 0) (fun _ => 0) (fun _ _ => 0) 0 (by norm_num) (by decide)
  rw [List.all_eq_true]
  intro g hg
  simpa using hall g hg

/-- C10: the three UI actions the second-revision reducer does not handle,
SET_HIHAT_MODE, TOGGLE_TRACK_SWING_LOCK and SET_TRACK_GHOST_QUANTITY, fall
through to the default branch, so dispatch keeps the very same state and
never invokes the subscribed observers (the boolean of dispatch records
whether notify ran). -/
theorem unhandled_actions_keep_state_no_notify
    (s : StoreState) (m : HihatMode) (t : ℕ) (q : ℚ) :
    reducer s (StoreAction.setHihatMode m) = none ∧
    dispatch s (StoreAction.setHihatMode m) = (s, false) ∧
    reducer s (StoreAction.toggleTrackSwingLock t) = none ∧
    dispatch s (StoreAction.toggleTrackSwingLock t) = (s, false) ∧
    reducer s (StoreAction.setTrackGhostQuantity t q) = none ∧
    dispatch s (StoreAction.setTrackGhostQuantity t q) = (s, false) :=
  ⟨rfl, rfl, rfl, rfl, rfl, rfl⟩

/-- C4 amended: the tempo boundary rejects a NaN parse and the exact value
zero, retaining the stored state; every other value, including negative
ones, is dispatched and becomes the stored bpm while the rest of the state
is unchanged. -/
theorem tempo_input_zero_nan_rejected_rest_stored
    (s : StoreState) (v : ℚ) :
    handleTempoInput s none = s ∧
    handleTempoInput s (some 0) = s ∧
    (v ≠ 0 →
      (handleTempoInput s (some v)).transport.bpm = v ∧
      (handleTempoInput s (some v)).transport.isPlaying
        = s.transport.isPlaying ∧
      (handleTempoInput s (some v)).steps = s.steps ∧
      (handleTempoInput s (some v)).humanizeValue = s.humanizeValue) := by
  refine ⟨rfl, by simp [handleTempoInput], fun hv => ?_⟩
  simp [handleTempoInput, dispatch, reducer, hv]

/-- Witness for C4 amended at a concrete input. -/
theorem tempo_input_zero_nan_rejected_rest_stored_witness :
    handleTempoInput initialState none = initialState ∧
    handleTempoInput initialState (some 0) = initialState ∧
    (handleTempoInput initialState (some 140)).transport.bpm = 140 :=
  ⟨(tempo_input_zero_nan_rejected_rest_stored initialState 140).1,
   (tempo_input_zero_nan_rejected_rest_stored initialState 140).2.1,
   ((tempo_input_zero_nan_rejected_rest_stored initialState 140).2.2
     (by norm_num)).1⟩

/-- C4 counterexample: a negative tempo of minus 5 is not rejected at the
boundary; the stored bpm changes from the prior valid 88 to minus 5. -/
theorem tempo_input_negative_accepted :
    initialState.transport.bpm = 88 ∧
    (handleTempoInput initialState (some (-5))).transport.bpm = -5 ∧
    (handleTempoInput initialState (some (-5))).transport.bpm
      ≠ initialState.transport.bpm := by
  refine ⟨rfl, ?_, ?_⟩ <;>
    simp [handleTempoInput, dispatch, reducer, initialState] <;> norm_num

/-- The humanized time is always the base time plus a quantized offset; the
two bypass branches return a zero offset, which quantizes to itself. -/
lemma getHumanizedNote_time_shape
    (trackIdx stepIdx : ℕ) (baseTime : ℚ) (aiSequence : Option AiSequence)
    (humanizeAmount : ℚ) (pitchMap : ℕ → ℤ) (bpm : ℚ)
    (trackSettings : Option (ℕ → Option TrackSetting))
    (hihatMode : HihatMode) (rnd : HumanizeRand) :
    ∃ x : ℚ, (getHumanizedNote trackIdx stepIdx baseTime aiSequence
        humanizeAmount pitchMap bpm trackSettings hihatMode rnd).1
      = baseTime + quantizeToMPCTicks x bpm := by
  simp only [getHumanizedNote]
  by_cases h1 : tsSwingLocked trackSettings trackIdx = true ∨
      (hihatMode = HihatMode.live ∧ pitchMap trackIdx = DRUM_PITCHES_KICK)
  · rw [if_pos h1]
    exact ⟨0, by simp [quantizeToMPCTicks]⟩
  · rw [if_neg h1]
    by_cases h2 : humanizeAmount = 0
    · rw [if_pos h2]
      exact ⟨0, by simp [quantizeToMPCTicks]⟩
    · rw [if_neg h2]
      exact ⟨_, rfl⟩

/-- C1 amended: relative to the grid time handed in, the main humanized hit
lands an exact integer number of hardware ticks of 60/bpm/96 seconds away,
and every generated ghost startTime is an exact integer multiple of that
tick; the live-rescaled dispatch time of a ghost is excluded (see the
counterexample). -/
theorem note_times_are_tick_multiples
    (trackIdx stepIdx : ℕ) (baseTime : ℚ) (aiSequence : Option AiSequence)
    (humanizeAmount : ℚ) (pitchMap : ℕ → ℤ) (bpm : ℚ)
    (trackSettings : Option (ℕ → Option TrackSetting))
    (hihatMode : HihatMode) (rnd : HumanizeRand)
    (steps : ℕ → ℕ → Bool) (u : ℕ → ℕ → ℚ) (jr : ℕ → ℚ) (gv : ℕ → ℕ → ℚ)
    (hbpm : 0 < bpm) :
    (∃ k : ℤ, (getHumanizedNote trackIdx stepIdx baseTime aiSequence
        humanizeAmount pitchMap bpm trackSettings hihatMode rnd).1 - baseTime
      = (k : ℚ) * (60 / bpm / 96)) ∧
    (∀ g ∈ extractGhostNotes aiSequence steps bpm humanizeAmount
        trackSettings u jr gv,
      ∃ k : ℤ, g.startTime = (k : ℚ) * (60 / bpm / 96)) := by
  constructor
  · obtain ⟨x, hx⟩ := getHumanizedNote_time_shape trackIdx stepIdx baseTime
      aiSequence humanizeAmount pitchMap bpm trackSettings hihatMode rnd
    refine ⟨round (x / (60 / bpm / 96)), ?_⟩
    rw [hx, quantizeToMPCTicks_eq_round_mul]
    ring
  · intro g hg
    rcases mem_extractGhostNotes_cases hg with
      ⟨-, -, c, -, hst⟩ | ⟨-, -, hst⟩ | ⟨-, -, j, hst⟩ | ⟨-, -, hst⟩ <;>
      exact ⟨_, by rw [hst, quantizeToMPCTicks_eq_round_mul]⟩

/-- Concrete generator run for C1: bpm 120, intensity 0.7, snare quantity
100, empty pattern, the pre-drag gate firing only at step 3.  The single
snare ghost lands at 77 ticks of 1/192 seconds. -/
lemma extract_snare_run_eq :
    extractGhostNotes none (fun _ _ => false) 120 (7/10)
      (some fun t => if t = 1 then some ⟨none, none, none, none, some 100⟩
        else some ⟨none, none, none, none, some 0⟩)
      (fun _ s => if s = 3 then 0 else 3) (fun _ => 0) (fun _ _ => 0)
      = [⟨38, 3, 77/192, 32⟩] := by
  simp only [extractGhostNotes, generateSnareGhosts, generateKickGhosts,
    generateClosedHiHatGhosts, generateOpenHiHatGhosts, tsGhostQuantity,
    getEffectiveOffsetScale, MIN_OFFSET_SCALE, gaussianProbability,
    gaussianVelocity, quantizeToMPCTicks, List.flatMap_cons, List.flatMap_nil,
    Option.bind_some, Option.getD_some, round_eq, DRUM_PITCHES_SNARE,
    DRUM_PITCHES_KICK, DRUM_PITCHES_HIHAT_CLOSED, DRUM_PITCHES_HIHAT_OPEN]
  norm_num

/-- Witness for C1 amended: concrete main hit at bpm 96, and the concrete
snare ghost of the counterexample run at bpm 120. -/
theorem note_times_are_tick_multiples_witness :
    (∃ k : ℤ, (getHumanizedNote 0 0 0 none 1 TRACK_TO_PITCH 96 none
        HihatMode.friction ⟨1/2, 1/2, 0⟩).1 - 0 = (k : ℚ) * (60 / 96 / 96)) ∧
    (∃ k : ℤ, (77/192 : ℚ) = (k : ℚ) * (60 / 120 / 96)) := by
  constructor
  · exact (note_times_are_tick_multiples 0 0 0 none 1 TRACK_TO_PITCH 96 none
      HihatMode.friction ⟨1/2, 1/2, 0⟩ (fun _ _ => false) (fun _ _ => 0)
      (fun _ => 0) (fun _ _ => 0) (by norm_num)).1
  · have h2 := (note_times_are_tick_multiples 0 0 0 none (7/10)
      TRACK_TO_PITCH 120
      (some fun t => if t = 1 then some ⟨none, none, none, none, some 100⟩
        else some ⟨none, none, none, none, some 0⟩)
      HihatMode.friction ⟨1/2, 1/2, 0⟩ (fun _ _ => false)
      (fun _ s => if s = 3 then 0 else 3) (fun _ => 0) (fun _ _ => 0)
      (by norm_num)).2
    exact h2 ⟨38, 3, 77/192, 32⟩
      (by rw [extract_snare_run_eq]; exact List.mem_singleton_self _)

/-- C1 counterexample: at bpm 120 with humanize intensity 0.7, the generated
snare drag ghost has the tick-aligned startTime 77/192, but its dispatched
timestamp, rescaled by the intensity at tick time, sits 3.5 ticks after the
grid and is not an integer multiple of the hardware tick 60/120/96. -/
theorem dispatched_ghost_time_off_tick_grid :
    (extractGhostNotes none (fun _ _ => false) 120 (7/10)
      (some fun t => if t = 1 then some ⟨none, none, none, none, some 100⟩
        else some ⟨none, none, none, none, some 0⟩)
      (fun _ s => if s = 3 then 0 else 3) (fun _ => 0) (fun _ _ => 0)).map
      (fun g => (g.pitch, g.step, g.startTime)) = [(38, 3, 77/192)] ∧
    ghostDispatchTime ((3 : ℚ) * (60 / 120 / 4)) (77/192) 3 120 (7/10)
      = 151/384 ∧
    ¬ ∃ k : ℤ, (151/384 : ℚ) - (3 : ℚ) * (60 / 120 / 4)
      = (k : ℚ) * (60 / 120 / 96) := by
  refine ⟨by rw [extract_snare_run_eq]; rfl,
    by norm_num [ghostDispatchTime], ?_⟩
  rintro ⟨k, hk⟩
  have h2 : (2 * k : ℤ) = 7 := by
    have : (2 * k : ℚ) = 7 := by
      field_simp at hk
      linarith
    exact_mod_cast this
  omega

/-- A late offset proportional to the step duration is a fixed number of
ticks: dividing by the tick duration leaves 24 times the proportion. -/
lemma step_proportional_offset_div_tick (bpm c sc : ℚ) (hbpm : bpm ≠ 0) :
    (60 / bpm / 4 * c * sc) / (60 / bpm / 96) = 24 * c * sc := by
  field_simp
  ring

/-- C7 amended: the effective timing-offset ratio is max of 0.3 and the
intensity, and the snare, kick and open hi-hat ghosts, whose late offsets
are proportional to the step duration, never quantize back onto the exact
grid time of their step; the closed hi-hat ghost is excluded because its
absolute millisecond jitter can quantize to zero at low tempo (see the
counterexample). -/
theorem ghost_offset_floor_and_proportional_off_grid
    (humanizeAmount bpm : ℚ) (aiSequence : Option AiSequence)
    (steps : ℕ → ℕ → Bool) (ts : Option (ℕ → Option TrackSetting))
    (u : ℕ → ℕ → ℚ) (jr : ℕ → ℚ) (gv : ℕ → ℕ → ℚ) (hbpm : 0 < bpm) :
    getEffectiveOffsetScale humanizeAmount = max (3/10) humanizeAmount ∧
    ∀ g ∈ extractGhostNotes aiSequence steps bpm humanizeAmount ts u jr gv,
      g.pitch ≠ DRUM_PITCHES_HIHAT_CLOSED →
      g.startTime ≠ (g.step : ℚ) * (60 / bpm / 4) := by
  constructor
  · rfl
  · intro g hg hpitch
    have hsc : (3/10 : ℚ) ≤ getEffectiveOffsetScale humanizeAmount :=
      le_max_left _ _
    rcases mem_extractGhostNotes_cases hg with
      ⟨-, -, c, hc, hst⟩ | ⟨-, -, hst⟩ | ⟨hp, -, -⟩ | ⟨-, -, hst⟩
    · rw [hst]
      refine quantize_grid_add_ne bpm hbpm g.step _ ?_
      rw [step_proportional_offset_div_tick bpm c _ (ne_of_gt hbpm)]
      rcases hc with rfl | rfl <;> linarith
    · rw [hst]
      refine quantize_grid_add_ne bpm hbpm g.step _ ?_
      rw [step_proportional_offset_div_tick bpm (25/100) _ (ne_of_gt hbpm)]
      linarith
    · exact absurd hp hpitch
    · rw [hst]
      refine quantize_grid_add_ne bpm hbpm g.step _ ?_
      rw [step_proportional_offset_div_tick bpm (15/100) _ (ne_of_gt hbpm)]
      linarith

/-- Witness for C7 amended: the ratio floor at intensity 0.7, and the
concrete snare ghost of the bpm 120 run landing off the grid. -/
theorem ghost_offset_floor_and_proportional_off_grid_witness :
    getEffectiveOffsetScale (7/10) = max (3/10) (7/10) ∧
    (77/192 : ℚ) ≠ (3 : ℚ) * (60 / 120 / 4) := by
  have h := ghost_offset_floor_and_proportional_off_grid (7/10) 120 none
    (fun _ _ => false)
    (some fun t => if t = 1 then some ⟨none, none, none, none, some 100⟩
      else some ⟨none, none, none, none, some 0⟩)
    (fun _ s => if s = 3 then 0 else 3) (fun _ => 0) (fun _ _ => 0)
    (by norm_num)
  refine ⟨h.1, ?_⟩
  have h2 := h.2 ⟨38, 3, 77/192, 32⟩
    (by rw [extract_snare_run_eq]; exact List.mem_singleton_self _)
    (by norm_num [DRUM_PITCHES_HIHAT_CLOSED])
  simpa using h2

/-- Concrete generator run for the C7 counterexample: bpm 60, intensity 0.3,
closed hi-hat quantity 100, empty pattern, the skip gate firing only at step
1 with a zero jitter draw.  The 4.5 ms late offset is less than half of the
10.4 ms hardware tick, so quantization rounds it away. -/
lemma extract_closedhh_run_eq :
    extractGhostNotes none (fun _ _ => false) 60 (3/10)
      (some fun t => if t = 2 then some ⟨none, none, none, none, some 100⟩
        else some ⟨none, none, none, none, some 0⟩)
      (fun _ s => if s = 1 then 0 else 3) (fun _ => 0) (fun _ _ => 0)
      = [⟨42, 1, 1/4, 28⟩] := by
  simp only [extractGhostNotes, generateSnareGhosts, generateKickGhosts,
    generateClosedHiHatGhosts, generateOpenHiHatGhosts, tsGhostQuantity,
    getEffectiveOffsetScale, MIN_OFFSET_SCALE, gaussianProbability,
    gaussianVelocity, quantizeToMPCTicks, List.flatMap_cons, List.flatMap_nil,
    Option.bind_some, Option.getD_some, round_eq, DRUM_PITCHES_SNARE,
    DRUM_PITCHES_KICK, DRUM_PITCHES_HIHAT_CLOSED, DRUM_PITCHES_HIHAT_OPEN]
  norm_num

/-- C7 counterexample: at bpm 60 and intensity 0.3 (both in the ranges the
claim quantifies over), a generated closed hi-hat skip ghost quantizes to
exactly the grid time of its step 1, so ghosts can be perfectly on-grid. -/
theorem closed_hihat_ghost_lands_on_grid :
    (0 : ℚ) < 60 ∧ (0 : ℚ) ≤ 3/10 ∧ (3/10 : ℚ) ≤ 1 ∧
    (extractGhostNotes none (fun _ _ => false) 60 (3/10)
      (some fun t => if t = 2 then some ⟨none, none, none, none, some 100⟩
        else some ⟨none, none, none, none, some 0⟩)
      (fun _ s => if s = 1 then 0 else 3) (fun _ => 0) (fun _ _ => 0)).map
      (fun g => (g.pitch, g.step, g.startTime)) = [(42, 1, 1/4)] ∧
    ((1 : ℕ) : ℚ) * (60 / 60 / 4) = 1/4 := by
  refine ⟨by norm_num, by norm_num, by norm_num,
    by rw [extract_closedhh_run_eq]; rfl, by norm_num⟩

/-- C6 amended: a cached groove note is matched for (track, step) exactly
when it has the track pitch and its start time rounds to the step index,
that is, lies within HALF a step duration of the expected grid time (the
claimed window of one full step is refuted by the counterexample); a matched
note contributes the offset (startTime minus expectedGridTime) times
intensity times swing multiplier to the quantized total. -/
theorem groove_note_match_window_and_contribution :
    (∀ (d : ℚ) (stepIdx : ℕ) (pitch : ℤ) (n : AiNote), 0 < d →
      (findAiNote (some ⟨[n]⟩) d stepIdx pitch = some n ↔
        (n.pitch = pitch ∧ (stepIdx : ℚ) * d - d/2 ≤ n.startTime ∧
          n.startTime < (stepIdx : ℚ) * d + d/2))) ∧
    (∀ (trackIdx stepIdx : ℕ) (baseTime : ℚ) (sq : AiSequence) (h : ℚ)
        (pm : ℕ → ℤ) (bpm : ℚ) (ts : Option (ℕ → Option TrackSetting))
        (mode : HihatMode) (rnd : HumanizeRand) (n : AiNote),
      tsSwingLocked ts trackIdx = false →
      ¬(mode = HihatMode.live ∧ pm trackIdx = DRUM_PITCHES_KICK) →
      h ≠ 0 →
      findAiNote (some sq) (60 / min bpm DILLA_MAX_BPM / 4) stepIdx
        (pm trackIdx) = some n →
      (getHumanizedNote trackIdx stepIdx baseTime (some sq) h pm bpm ts mode
          rnd).1
        = baseTime + quantizeToMPCTicks
            (getPushPullOffset (pm trackIdx) h mode rnd.pushPull
              + (n.startTime - (stepIdx : ℚ) * (60 / min bpm DILLA_MAX_BPM / 4))
                  * h * trackSwingMultiplier mode (pm trackIdx)
              + (if stepIdx % 2 = 1 then
                  getTupletOffset (60 / min bpm DILLA_MAX_BPM / 4) h *
                    (1 - (1 - h) ^ 3) *
                    trackSwingMultiplier mode (pm trackIdx) * (15/100)
                else 0)
              + max (-(1/100)) (min (1/100)
                  (n.startTime - (stepIdx : ℚ) *
                    (60 / min bpm DILLA_MAX_BPM / 4)))
                  * AI_BLEND_microTimingWeight * h) bpm) := by
  constructor
  · intro d st p n hd
    have e1 : (st : ℚ) * d - d/2 = ((st : ℚ) - 1/2) * d := by ring
    have e2 : (st : ℚ) * d + d/2 = ((st : ℚ) + 1/2) * d := by ring
    have key : round (n.startTime / d) = (st : ℤ) ↔
        ((st : ℚ) * d - d/2 ≤ n.startTime ∧
          n.startTime < (st : ℚ) * d + d/2) := by
      rw [round_eq, Int.floor_eq_iff, e1, e2]
      push_cast
      constructor
      · rintro ⟨h1, h2⟩
        exact ⟨(le_div_iff₀ hd).mp (by linarith),
          (div_lt_iff₀ hd).mp (by linarith)⟩
      · rintro ⟨h1, h2⟩
        exact ⟨by linarith [(le_div_iff₀ hd).mpr h1],
          by linarith [(div_lt_iff₀ hd).mpr h2]⟩
    simp only [findAiNote]
    rcases hb : (n.pitch == p && (round (n.startTime / d) == (st : ℤ)))
      with _ | _
    · rw [List.find?_cons_of_neg _ (by rw [hb]; simp)]
      simp only [List.find?_nil]
      constructor
      · intro hnone
        exact Option.noConfusion hnone
      · rintro ⟨h1, h2⟩
        exfalso
        have htrue : (n.pitch == p &&
            (round (n.startTime / d) == (st : ℤ))) = true := by
          rw [Bool.and_eq_true, beq_iff_eq, beq_iff_eq]
          exact ⟨h1, key.mpr h2⟩
        rw [hb] at htrue
        exact Bool.false_ne_true htrue
    · rw [@List.find?_cons_of_pos AiNote
        (fun note => note.pitch == p && (round (note.startTime / d) == (st : ℤ)))
        n [] hb]
      rw [Bool.and_eq_true, beq_iff_eq, beq_iff_eq] at hb
      constructor
      · intro _
        exact ⟨hb.1, key.mp hb.2⟩
      · intro _
        rfl
  · intro trackIdx stepIdx baseTime sq h pm bpm ts mode rnd n hlock hkick hh
      hfind
    have hcond : ¬(tsSwingLocked ts trackIdx = true ∨
        (mode = HihatMode.live ∧ pm trackIdx = DRUM_PITCHES_KICK)) := by
      rw [hlock]
      simp [hkick]
    simp only [getHumanizedNote]
    rw [if_neg hcond, if_neg hh, hfind]

/-- Witness for C6 amended: at bpm 96 the capped step duration is 5/32
seconds; the note at 1/16 seconds lies within half a step of grid position
0, is matched, and contributes its deviation times intensity times the kick
swing multiplier. -/
theorem groove_note_match_window_and_contribution_witness :
    (findAiNote (some ⟨[⟨36, 1/16, 90⟩]⟩) (60 / min (96:ℚ) DILLA_MAX_BPM / 4)
        0 36 = some ⟨36, 1/16, 90⟩ ↔
      ((36:ℤ) = 36 ∧ ((0:ℕ) : ℚ) * (60 / min (96:ℚ) DILLA_MAX_BPM / 4)
            - (60 / min (96:ℚ) DILLA_MAX_BPM / 4)/2 ≤ 1/16 ∧
        (1/16 : ℚ) < ((0:ℕ) : ℚ) * (60 / min (96:ℚ) DILLA_MAX_BPM / 4)
            + (60 / min (96:ℚ) DILLA_MAX_BPM / 4)/2)) ∧
    (getHumanizedNote 0 0 0 (some ⟨[⟨36, 1/16, 90⟩]⟩) 1 TRACK_TO_PITCH 96
        none HihatMode.friction ⟨1/2, 1/2, 0⟩).1
      = 0 + quantizeToMPCTicks
          (getPushPullOffset (TRACK_TO_PITCH 0) 1 HihatMode.friction (1/2)
            + ((1/16 : ℚ) - ((0:ℕ) : ℚ) * (60 / min (96:ℚ) DILLA_MAX_BPM / 4))
                * 1 * trackSwingMultiplier HihatMode.friction (TRACK_TO_PITCH 0)
            + (if 0 % 2 = 1 then
                getTupletOffset (60 / min (96:ℚ) DILLA_MAX_BPM / 4) 1 *
                  (1 - (1 - 1) ^ 3) *
                  trackSwingMultiplier HihatMode.friction (TRACK_TO_PITCH 0)
                  * (15/100)
              else 0)
            + max (-(1/100)) (min (1/100)
                ((1/16 : ℚ) - ((0:ℕ) : ℚ) *
                  (60 / min (96:ℚ) DILLA_MAX_BPM / 4)))
                * AI_BLEND_microTimingWeight * 1) 96 := by
  constructor
  · exact groove_note_match_window_and_contribution.1
      (60 / min (96:ℚ) DILLA_MAX_BPM / 4) 0 36 ⟨36, 1/16, 90⟩
      (by norm_num [DILLA_MAX_BPM])
  · refine groove_note_match_window_and_contribution.2 0 0 0 ⟨[⟨36, 1/16, 90⟩]⟩
      1 TRACK_TO_PITCH 96 none HihatMode.friction ⟨1/2, 1/2, 0⟩
      ⟨36, 1/16, 90⟩ rfl (by decide) (by norm_num) ?_
    refine (groove_note_match_window_and_contribution.1
      (60 / min (96:ℚ) DILLA_MAX_BPM / 4) 0 (TRACK_TO_PITCH 0) ⟨36, 1/16, 90⟩
      (by norm_num [DILLA_MAX_BPM])).mpr ?_
    refine ⟨by decide, ?_, ?_⟩ <;> norm_num [DILLA_MAX_BPM]

/-- The groove-note lookup misses a note three quarters of a step after the
grid position, although that note is within one full step duration. -/
lemma findAiNote_miss :
    findAiNote (some ⟨[⟨36, 15/128, 90⟩]⟩) (5/32) 0 36 = none := by
  simp only [findAiNote]
  rw [List.find?_cons_of_neg]
  · rfl
  · simp only [Bool.and_eq_true, beq_iff_eq, not_and]
    intro _
    rw [round_eq]
    norm_num

/-- Full evaluation of getHumanizedNote at bpm 96, intensity 1, kick track,
step 0, with a cached note at 15/128 seconds: the note is ignored and the
output is the push-pull drag alone, quantized to 7 ticks. -/
lemma humanize_eval_with_seq :
    getHumanizedNote 0 0 0 (some ⟨[⟨36, 15/128, 90⟩]⟩) 1 TRACK_TO_PITCH 96
      none HihatMode.friction ⟨1/2, 1/2, 0⟩ = (35/768, 100) := by
  have hmode : HihatMode.friction ≠ HihatMode.live := by decide
  simp only [getHumanizedNote, TRACK_TO_PITCH, DRUM_PITCHES_KICK,
    DRUM_PITCHES_SNARE, DRUM_PITCHES_HIHAT_CLOSED, DRUM_PITCHES_HIHAT_OPEN,
    tsSwingLocked]
  norm_num [hmode, findAiNote_miss, getPushPullOffset, getMicroVariation,
    trackSwingMultiplier, quantizeToMPCTicks, DILLA_MAX_BPM,
    DRUM_PITCHES_KICK, DRUM_PITCHES_SNARE, DRUM_PITCHES_HIHAT_CLOSED,
    DRUM_PITCHES_HIHAT_OPEN, round_eq, min_def, max_def, Prod.ext_iff]

/-- The same call with no cached sequence produces the identical output. -/
lemma humanize_eval_no_seq :
    getHumanizedNote 0 0 0 none 1 TRACK_TO_PITCH 96
      none HihatMode.friction ⟨1/2, 1/2, 0⟩ = (35/768, 100) := by
  have hmode : HihatMode.friction ≠ HihatMode.live := by decide
  simp only [getHumanizedNote, TRACK_TO_PITCH, DRUM_PITCHES_KICK,
    DRUM_PITCHES_SNARE, DRUM_PITCHES_HIHAT_CLOSED, DRUM_PITCHES_HIHAT_OPEN,
    tsSwingLocked, findAiNote]
  norm_num [hmode, getPushPullOffset, getMicroVariation,
    trackSwingMultiplier, quantizeToMPCTicks, DILLA_MAX_BPM,
    DRUM_PITCHES_KICK, DRUM_PITCHES_SNARE, DRUM_PITCHES_HIHAT_CLOSED,
    DRUM_PITCHES_HIHAT_OPEN, round_eq, min_def, max_def, Prod.ext_iff]

/-- C6 counterexample: at bpm 96 the capped step duration is 5/32 seconds.
The cached kick note at 15/128 seconds lies within one full step duration of
grid position 0 (the distance 15/128 is below 5/32) and shares the kick
pitch, yet it is not matched and contributes nothing: the engine output is
identical with and without the cached sequence, while the claimed
contribution (startTime minus grid) times intensity times multiplier is the
nonzero 15/128. -/
theorem groove_note_within_one_step_not_matched :
    |(15/128 : ℚ) - ((0:ℕ) : ℚ) * (5/32)| ≤ 5/32 ∧
    (36 : ℤ) = TRACK_TO_PITCH 0 ∧
    findAiNote (some ⟨[⟨36, 15/128, 90⟩]⟩) (5/32) 0 36 = none ∧
    getHumanizedNote 0 0 0 (some ⟨[⟨36, 15/128, 90⟩]⟩) 1 TRACK_TO_PITCH 96
      none HihatMode.friction ⟨1/2, 1/2, 0⟩
      = getHumanizedNote 0 0 0 none 1 TRACK_TO_PITCH 96
        none HihatMode.friction ⟨1/2, 1/2, 0⟩ ∧
    ((15/128 : ℚ) - ((0:ℕ) : ℚ) * (5/32)) * 1 *
      trackSwingMultiplier HihatMode.friction (TRACK_TO_PITCH 0) ≠ 0 := by
  refine ⟨by norm_num [abs_le], by decide, findAiNote_miss, ?_, ?_⟩
  · rw [humanize_eval_with_seq, humanize_eval_no_seq]
  · norm_num [trackSwingMultiplier, TRACK_TO_PITCH, DRUM_PITCHES_KICK]
